import Mathlib

/-!
Verification of the Setlone App API backend.

This file gives a shallow embedding, in Lean 4, of the parts of the
repository relevant to its specification: the unique-UID allocator and the
UID update path of `src/models/User.js`, and the market-data proxy route
handlers of `src/routes/stock.js` (equity quote snapshot, equity chart
extraction, futures symbol remapping).  Effectful JavaScript is embedded by
making its inputs explicit: the random source becomes a stream
`rand : Nat → Nat` of draws, the database existence check becomes an oracle
`ex : String → Bool`, the upstream HTTP payload becomes an explicit
structure, and thrown exceptions become `Except` errors / tagged outcomes.
-/

namespace Setlone

/-! ## Definitions -/

/-! ### UID allocation (`generateUniqueUID`, src/models/User.js)

JavaScript source:

```js
let uid; let exists = true; let attempts = 0; const maxAttempts = 100;
while (exists && attempts < maxAttempts) {
  uid = String(Math.floor(Math.random() * 9000000) + 1000000);
  const rows = await query(sql, [uid]);   // SELECT 1 FROM users WHERE uid = ?
  exists = rows.length > 0;
  attempts++;
}
if (attempts >= maxAttempts) { throw new Error("Failed to generate unique UID"); }
return uid;
```
-/

/-- The candidate string drawn at attempt `k`:
`String(Math.floor(Math.random() * 9000000) + 1000000)`, where `rand k` stands
for the value `Math.floor(Math.random() * 9000000)` produced at the `k`-th
draw (so `rand k < 9000000` for a genuine `Math.random`). -/
def cand (rand : Nat → Nat) (k : Nat) : String :=
  Nat.repr (rand k + 1000000)

/-- The `while (exists && attempts < maxAttempts)` loop of `generateUniqueUID`.
State: the `uid` variable (initially unassigned, hence `Option`), the
`exists` flag `exb`, and the `attempts` counter.  The structural `fuel`
starts at `100 = maxAttempts`; since every iteration increments `attempts`,
the invariant `100 ≤ fuel + attempts` holds throughout, so the fuel never
runs out before the `attempts < 100` guard fails. -/
def uidLoop (ex : String → Bool) (rand : Nat → Nat) :
    Nat → Nat → Option String → Bool → Option String × Nat
  | 0, attempts, uid, _ => (uid, attempts)
  | fuel + 1, attempts, uid, exb =>
    if exb ∧ attempts < 100 then
      let u := cand rand attempts
      uidLoop ex rand fuel (attempts + 1) (some u) (ex u)
    else (uid, attempts)

/-- The allocator `generateUniqueUID`, with the database existence check abstracted as the
oracle `ex` and the random source as the draw stream `rand`.  The thrown
`Error("Failed to generate unique UID")` becomes `Except.error`. -/
def generateUniqueUID (ex : String → Bool) (rand : Nat → Nat) : Except String String :=
  let r := uidLoop ex rand 100 0 none true
  if r.2 ≥ 100 then Except.error "Failed to generate unique UID"
  else Except.ok (r.1.getD "")

/-! ### Decimal string representation

`String(n)` in JavaScript prints the decimal representation of the number;
its Lean counterpart is `Nat.repr`.  We characterize `Nat.repr` through an
explicit most-significant-first digit list `decDigits`, and read a digit
string back with `decValue`. -/

/-- Most-significant-first decimal digit characters of `n`. -/
def decDigits (n : Nat) : List Char :=
  if _h : n < 10 then [Nat.digitChar n]
  else decDigits (n / 10) ++ [Nat.digitChar (n % 10)]
decreasing_by exact Nat.div_lt_self (by omega) (by omega)

/-- Numeric value of a most-significant-first decimal digit string. -/
def decValue (cs : List Char) : Nat :=
  cs.foldl (fun a c => 10 * a + (c.toNat - 48)) 0

/-- The regular-expression test `/^\d{7}$/.test(s)` used by `updateUserUID`:
exactly 7 characters, all decimal digits. -/
def isSevenDigitUID (s : String) : Bool :=
  s.length == 7 && s.toList.all Char.isDigit

/-- Stubbed existence oracle: every candidate except `"1000099"` is reported
as already present in the users table. -/
def exCounter : String → Bool := fun s => !(s == "1000099")

/-- Stubbed random source: the `k`-th draw is `k` (so the candidates are
`"1000000"`, `"1000001"`, …). -/
def randCounter : Nat → Nat := fun k => k

/-! ### UID update (`updateUserUID` / `getUserByUID`, src/models/User.js)

The users table is embedded as a list of rows; `deleted` models
`deleted_at IS NOT NULL`.  `getUserByUID` is
`SELECT … FROM users WHERE uid = ? AND deleted_at IS NULL` returning the
first matching row, and the final `UPDATE users SET uid = ? WHERE id = ?
AND deleted_at IS NULL` rewrites the matching rows. -/

structure UserRec where
  id : Nat
  uid : String
  deleted : Bool
deriving DecidableEq

def getUserByUID (db : List UserRec) (uid : String) : Option UserRec :=
  (db.filter (fun u => u.uid == uid && !u.deleted)).head?

def applyUIDUpdate (db : List UserRec) (userId : Nat) (newUID : String) : List UserRec :=
  db.map (fun u => if u.id == userId && !u.deleted then { u with uid := newUID } else u)

/-- The update path `updateUserUID(userId, newUID)`: validate the 7-digit format, reject a
UID held by a *different* user, then update. -/
def updateUserUID (db : List UserRec) (userId : Nat) (newUID : String) :
    Except String (List UserRec) :=
  if !isSevenDigitUID newUID then Except.error "UID must be exactly 7 digits"
  else
    match getUserByUID db newUID with
    | some u =>
      if u.id ≠ userId then Except.error "UID already exists"
      else Except.ok (applyUIDUpdate db userId newUID)
    | none => Except.ok (applyUIDUpdate db userId newUID)

/-! ### Equity chart extraction (`GET /stock/chart/:symbol`, src/routes/stock.js)

```js
const candles = []
for (let i = 0; i < timestamps.length; i++) {
  let timestamp = timestamps[i]
  let time
  if (timestamp > 1e12) { time = Math.floor(timestamp / 1000) }
  else { time = Math.floor(timestamp) }
  const open = quote.open[i] || 0
  …
  if (open > 0 && high > 0 && low > 0 && close > 0) { candles.push({…}) }
}
candles.sort((a, b) => a.time - b.time)
```

Prices are embedded as rationals; a missing array entry (out of range or
`null`) reads as 0 through `jsGet`, matching `x[i] || 0`.  The `for` loop is
embedded as `chartRows`, structural recursion over the timestamp list that
walks the five parallel price arrays in lockstep (reading index `i` of a
list is reading index 0 of its `i`-th tail). -/

structure Candle where
  time : Int
  «open» : ℚ
  high : ℚ
  low : ℚ
  close : ℚ
  volume : ℚ
deriving DecidableEq

/-- The comparator `(a, b) => a.time - b.time` passed to `candles.sort`,
as the Boolean order used by the (stable) sort. -/
def candleLE (a b : Candle) : Bool :=
  decide (a.time ≤ b.time)

/-- Reading `xs[i] || 0` on a JavaScript array of (possibly null/missing) numbers:
out-of-range and `null` entries read as 0 (`0` itself is falsy, so `v || 0`
is the identity on numbers apart from mapping the absent cases to 0). -/
def jsGet (xs : List (Option ℚ)) (i : Nat) : ℚ :=
  match xs[i]? with
  | some (some x) => x
  | _ => 0

/-- Timestamp normalization: `timestamp > 1e12` is taken as milliseconds and
floor-divided by 1000, anything else is `Math.floor`-ed (the identity on
integers).  `Int` division by the positive 1000 is floor division. -/
def normTime (t : Int) : Int :=
  if t > 1000000000000 then t / 1000 else t

/-- The candle-building `for` loop: one step per timestamp, reading the
current index of each parallel price array, keeping the row only when all
four prices are strictly positive, preserving upstream row order. -/
def chartRows : List Int → List (Option ℚ) → List (Option ℚ) → List (Option ℚ) →
    List (Option ℚ) → List (Option ℚ) → List Candle
  | [], _, _, _, _, _ => []
  | t :: ts, o, h, l, c, v =>
    (if 0 < jsGet o 0 ∧ 0 < jsGet h 0 ∧ 0 < jsGet l 0 ∧ 0 < jsGet c 0 then
      [⟨normTime t, jsGet o 0, jsGet h 0, jsGet l 0, jsGet c 0, jsGet v 0⟩]
    else []) ++
    chartRows ts o.tail h.tail l.tail c.tail v.tail

/-- The full chart extraction: build the rows, then
`candles.sort((a, b) => a.time - b.time)` — a stable ascending sort. -/
def extractCandles (ts : List Int) (o h l c v : List (Option ℚ)) : List Candle :=
  (chartRows ts o h l c v).mergeSort candleLE

/-! ### Equity chart endpoint outcome (`GET /stock/chart/:symbol`)

The nested shape of the upstream payload, and the three-way outcome of the route:
200 with candles, 404 `{error}` on an absent/empty nested structure, and the
catch-all 500 `{error}` (a non-OK HTTP status is thrown as
`Error("HTTP error! status: ...")` and lands in the catch block). -/

structure QuoteBlock where
  «open» : Option (List (Option ℚ))
  high : List (Option ℚ)
  low : List (Option ℚ)
  close : List (Option ℚ)
  volume : List (Option ℚ)

structure Indicators where
  quote : List QuoteBlock

structure ChartResult where
  timestamp : Option (List Int)
  indicators : Indicators

structure Chart where
  result : Option (List ChartResult)

structure ChartPayload where
  chart : Option Chart

structure FetchResult where
  ok : Bool
  status : Nat
  data : ChartPayload

inductive ChartOutcome where
  /-- HTTP 200 `{candles: [...]}` -/
  | candles (cs : List Candle)
  /-- HTTP 404 `{error: msg}` -/
  | notFound (msg : String)
  /-- HTTP 500 `{error: msg}` (catch block) -/
  | serverError (msg : String)

def ChartOutcome.isNotFound : ChartOutcome → Bool
  | ChartOutcome.notFound _ => true
  | _ => false

/-- The `GET /stock/chart/:symbol` handler after the fetch resolves. -/
def chartHandler (r : FetchResult) : ChartOutcome :=
  if !r.ok then ChartOutcome.serverError ("HTTP error! status: " ++ Nat.repr r.status)
  else
    match r.data.chart with
    | none => ChartOutcome.notFound "No data found"
    | some ch =>
      match ch.result with
      | none => ChartOutcome.notFound "No data found"
      | some [] => ChartOutcome.notFound "No data found"
      | some (result :: _) =>
        let timestamps := result.timestamp.getD []
        match result.indicators.quote.head? with
        | none => ChartOutcome.notFound "No quote data found"
        | some q =>
          match q.«open» with
          | none => ChartOutcome.notFound "No quote data found"
          | some [] => ChartOutcome.notFound "No quote data found"
          | some op =>
            ChartOutcome.candles (extractCandles timestamps op q.high q.low q.close q.volume)

/-! ### Equity quote snapshot (`GET /stock/price/:symbol`)

```js
const price = meta.regularMarketPrice || meta.currentPrice || meta.previousClose || 0
const previousClose = meta.previousClose || price
const change = price - previousClose
const changePercent = previousClose > 0 ? (change / previousClose) * 100 : 0
```
(`marketTime`, which formats a wall-clock date, is omitted.) -/

/-- JavaScript `a || b` on an optional number: absent (and the falsy 0)
falls through to `b`. -/
def jsOr (a : Option ℚ) (b : ℚ) : ℚ :=
  match a with
  | none => b
  | some x => if x = 0 then b else x

structure YahooMeta where
  regularMarketPrice : Option ℚ
  currentPrice : Option ℚ
  previousClose : Option ℚ
  regularMarketDayHigh : Option ℚ
  dayHigh : Option ℚ
  regularMarketDayLow : Option ℚ
  dayLow : Option ℚ
  regularMarketVolume : Option ℚ
  volume : Option ℚ
  marketState : Option String

def resolvedPrice (m : YahooMeta) : ℚ :=
  jsOr m.regularMarketPrice (jsOr m.currentPrice (jsOr m.previousClose 0))

def resolvedPrevClose (m : YahooMeta) : ℚ :=
  jsOr m.previousClose (resolvedPrice m)

structure QuoteSnapshot where
  price : ℚ
  priceChange : ℚ
  priceChangePercent : ℚ
  high24h : ℚ
  low24h : ℚ
  volume24h : ℚ
  isMarketOpen : Bool

def mkSnapshot (m : YahooMeta) : QuoteSnapshot :=
  let price := resolvedPrice m
  let previousClose := resolvedPrevClose m
  let change := price - previousClose
  let changePercent := if previousClose > 0 then change / previousClose * 100 else 0
  { price := price
    priceChange := change
    priceChangePercent := changePercent
    high24h := jsOr m.regularMarketDayHigh (jsOr m.dayHigh price)
    low24h := jsOr m.regularMarketDayLow (jsOr m.dayLow price)
    volume24h := jsOr m.regularMarketVolume (jsOr m.volume 0)
    isMarketOpen := m.marketState == some "REGULAR" || m.marketState == some "PRE" ||
      m.marketState == some "POST" }

/-! ### Futures symbol remapping (`GET /futures/chart/:symbol`)

```js
const cryptoFutures = ["BTC", "ETH", "XRP", "BNB", "SOL", "ADA", "DOGE", "DOT"]
const futuresSymbol = cryptoFutures.includes(symbol) ? `${symbol}USDT` : symbol
```
-/

def cryptoFutures : List String :=
  ["BTC", "ETH", "XRP", "BNB", "SOL", "ADA", "DOGE", "DOT"]

def futuresSymbol (symbol : String) : String :=
  if symbol ∈ cryptoFutures then symbol ++ "USDT" else symbol

/-! ## Helper theorems — UID loop -/

/-- Once `attempts` has reached 100 the loop stops immediately, whatever the
fuel and the `exists` flag. -/
theorem uidLoop_stop (ex : String → Bool) (rand : Nat → Nat) (fuel a : Nat)
    (uid : Option String) (exb : Bool) (ha : ¬ a < 100) :
    uidLoop ex rand fuel a uid exb = (uid, a) := by
  cases fuel with
  | zero => rfl
  | succ fuel =>
    simp only [uidLoop]
    rw [if_neg]
    intro h
    exact ha h.2

/-- The loop also stops immediately when the `exists` flag is false. -/
theorem uidLoop_stop_found (ex : String → Bool) (rand : Nat → Nat) (fuel a : Nat)
    (uid : Option String) :
    uidLoop ex rand fuel a uid false = (uid, a) := by
  cases fuel with
  | zero => rfl
  | succ fuel =>
    simp only [uidLoop]
    rw [if_neg]
    intro h
    exact Bool.false_ne_true h.1

/-- One iteration of the loop while the `exists` flag is true and the
attempt budget is not spent: draw the candidate of attempt `a`, store it in
`uid`, query the oracle, increment the counter. -/
theorem uidLoop_step (ex : String → Bool) (rand : Nat → Nat) (fuel a : Nat)
    (uid : Option String) (ha : a < 100) :
    uidLoop ex rand (fuel + 1) a uid true =
      uidLoop ex rand fuel (a + 1) (some (cand rand a)) (ex (cand rand a)) := by
  simp [uidLoop, ha]

/-- Success run of the loop: if, starting from attempt `a`, every candidate
strictly before attempt `k` is reported as existing and the candidate of
attempt `k < 100` is not, the loop returns that candidate with the counter
at `k + 1`. -/
theorem uidLoop_success (ex : String → Bool) (rand : Nat → Nat) :
    ∀ (fuel a : Nat) (uid : Option String) (k : Nat), 100 ≤ fuel + a → a ≤ k → k < 100 →
      (∀ j, a ≤ j → j < k → ex (cand rand j) = true) → ex (cand rand k) = false →
      uidLoop ex rand fuel a uid true = (some (cand rand k), k + 1) := by
  intro fuel
  induction fuel with
  | zero =>
    intro a uid k hfuel hak hk _ _
    omega
  | succ fuel ih =>
    intro a uid k hfuel hak hk hall hkf
    have ha : a < 100 := Nat.lt_of_le_of_lt hak hk
    rw [uidLoop_step ex rand fuel a uid ha]
    rcases Nat.lt_or_ge a k with hlt | hge
    · rw [hall a (Nat.le_refl a) hlt]
      exact ih (a + 1) (some (cand rand a)) k (by omega) hlt hk
        (fun j hj1 hj2 => hall j (by omega) hj2) hkf
    · have hak' : a = k := Nat.le_antisymm hak hge
      subst hak'
      rw [hkf]
      exact uidLoop_stop_found ex rand fuel (a + 1) (some (cand rand a))

/-- Exhaustion run of the loop: if every candidate drawn at attempts
`a, …, 98` is reported as existing, the counter ends at exactly 100
(whatever the existence answer for the 100th draw, attempt index 99). -/
theorem uidLoop_exhaust (ex : String → Bool) (rand : Nat → Nat) :
    ∀ (fuel a : Nat) (uid : Option String), 100 ≤ fuel + a → a ≤ 99 →
      (∀ j, a ≤ j → j < 99 → ex (cand rand j) = true) →
      (uidLoop ex rand fuel a uid true).2 = 100 := by
  intro fuel
  induction fuel with
  | zero =>
    intro a uid hfuel ha _
    omega
  | succ fuel ih =>
    intro a uid hfuel ha hall
    have ha100 : a < 100 := by omega
    rw [uidLoop_step ex rand fuel a uid ha100]
    rcases Nat.lt_or_ge a 99 with hlt | hge
    · rw [hall a (Nat.le_refl a) hlt]
      exact ih (a + 1) (some (cand rand a)) (by omega) hlt
        (fun j hj1 hj2 => hall j (by omega) hj2)
    · have ha99 : a = 99 := by omega
      subst ha99
      rw [uidLoop_stop ex rand fuel 100 (some (cand rand 99)) (ex (cand rand 99)) (by omega)]

/-- Whatever happens, the `uid` component of the loop result is either the
initial `uid` value or one of the drawn candidates. -/
theorem uidLoop_result_shape (ex : String → Bool) (rand : Nat → Nat) :
    ∀ (fuel a : Nat) (uid : Option String) (exb : Bool),
      (uidLoop ex rand fuel a uid exb).1 = uid ∨
      ∃ j, (uidLoop ex rand fuel a uid exb).1 = some (cand rand j) := by
  intro fuel
  induction fuel with
  | zero =>
    intro a uid exb
    exact Or.inl rfl
  | succ fuel ih =>
    intro a uid exb
    cases exb with
    | false =>
      rw [uidLoop_stop_found ex rand (fuel + 1) a uid]
      exact Or.inl rfl
    | true =>
      by_cases ha : a < 100
      · rw [uidLoop_step ex rand fuel a uid ha]
        rcases ih (a + 1) (some (cand rand a)) (ex (cand rand a)) with h1 | h1
        · exact Or.inr ⟨a, h1⟩
        · exact Or.inr h1
      · rw [uidLoop_stop ex rand (fuel + 1) a uid true ha]
        exact Or.inl rfl

/-! ## Helper theorems — decimal representation -/

theorem toDigitsCore_append (f : Nat) : ∀ (n : Nat) (ds : List Char),
    Nat.toDigitsCore 10 f n ds = Nat.toDigitsCore 10 f n [] ++ ds := by
  induction f with
  | zero =>
    intro n ds
    rfl
  | succ f ih =>
    intro n ds
    simp only [Nat.toDigitsCore]
    by_cases h : n / 10 = 0
    · rw [if_pos h, if_pos h]
      rfl
    · rw [if_neg h, if_neg h, ih (n / 10) (Nat.digitChar (n % 10) :: ds),
        ih (n / 10) [Nat.digitChar (n % 10)]]
      simp

theorem toDigitsCore_eq_decDigits (f : Nat) : ∀ n, n < f →
    Nat.toDigitsCore 10 f n [] = decDigits n := by
  induction f with
  | zero =>
    intro n h
    omega
  | succ f ih =>
    intro n h
    simp only [Nat.toDigitsCore]
    by_cases h10 : n / 10 = 0
    · rw [if_pos h10, decDigits, dif_pos (by omega : n < 10)]
      rw [Nat.mod_eq_of_lt (by omega : n < 10)]
    · have hrhs : decDigits n = decDigits (n / 10) ++ [Nat.digitChar (n % 10)] := by
        rw [decDigits, dif_neg (by omega : ¬ n < 10)]
      rw [if_neg h10, toDigitsCore_append f (n / 10) [Nat.digitChar (n % 10)],
        ih (n / 10) (by omega), hrhs]

/-- The string `Nat.repr n` is exactly the `decDigits` digit string. -/
theorem repr_eq_decDigits (n : Nat) : Nat.repr n = (decDigits n).asString := by
  show (Nat.toDigits 10 n).asString = (decDigits n).asString
  rw [Nat.toDigits, toDigitsCore_eq_decDigits (n + 1) n (Nat.lt_succ_self n)]

/-- A number between `10^e` and `10^(e+1) - 1` prints with exactly `e + 1`
decimal digits. -/
theorem decDigits_length (e : Nat) : ∀ n, 10 ^ e ≤ n → n < 10 ^ (e + 1) →
    (decDigits n).length = e + 1 := by
  induction e with
  | zero =>
    intro n h1 h2
    rw [decDigits, dif_pos (by simpa using h2)]
    rfl
  | succ e ih =>
    intro n h1 h2
    have h10 : (10 : Nat) ≤ 10 ^ (e + 1) := by
      calc (10 : Nat) = 10 ^ 1 := (pow_one 10).symm
      _ ≤ 10 ^ (e + 1) := Nat.pow_le_pow_right (by omega) (by omega)
    have hn10 : ¬ n < 10 := by omega
    rw [decDigits, dif_neg hn10, List.length_append]
    have hb1 : 10 ^ e ≤ n / 10 := by
      rw [Nat.le_div_iff_mul_le (by omega : 0 < 10)]
      calc 10 ^ e * 10 = 10 ^ (e + 1) := (pow_succ 10 e).symm
      _ ≤ n := h1
    have hb2 : n / 10 < 10 ^ (e + 1) := by
      rw [Nat.div_lt_iff_lt_mul (by omega : 0 < 10)]
      calc n < 10 ^ (e + 1 + 1) := h2
      _ = 10 ^ (e + 1) * 10 := pow_succ 10 (e + 1)
    rw [ih (n / 10) hb1 hb2]
    rfl

theorem digitChar_isDigit (m : Nat) (h : m < 10) : (Nat.digitChar m).isDigit = true := by
  interval_cases m <;> decide

theorem digitChar_val (m : Nat) (h : m < 10) : (Nat.digitChar m).toNat - 48 = m := by
  interval_cases m <;> decide

theorem decDigits_all_isDigit (n : Nat) : (decDigits n).all Char.isDigit = true := by
  induction n using Nat.strong_induction_on with
  | _ n ih =>
    by_cases h : n < 10
    · rw [decDigits, dif_pos h]
      simp [digitChar_isDigit n h]
    · rw [decDigits, dif_neg h, List.all_append]
      have h1 := ih (n / 10) (Nat.div_lt_self (by omega) (by omega))
      have h2 := digitChar_isDigit (n % 10) (Nat.mod_lt n (by omega))
      simp [h1, h2]

theorem decValue_append_digit (cs : List Char) (c : Char) :
    decValue (cs ++ [c]) = 10 * decValue cs + (c.toNat - 48) := by
  simp [decValue, List.foldl_append]

/-- Reading the decimal digit string of `n` back as a number gives `n`. -/
theorem decValue_decDigits (n : Nat) : decValue (decDigits n) = n := by
  induction n using Nat.strong_induction_on with
  | _ n ih =>
    by_cases h : n < 10
    · rw [decDigits, dif_pos h]
      show 10 * 0 + ((Nat.digitChar n).toNat - 48) = n
      rw [digitChar_val n h]
      omega
    · rw [decDigits, dif_neg h, decValue_append_digit,
        ih (n / 10) (Nat.div_lt_self (by omega) (by omega)),
        digitChar_val (n % 10) (Nat.mod_lt n (by omega))]
      omega

/-- The decimal string of any `n` with `1000000 ≤ n ≤ 9999999` passes the
7-digit test and reads back as `n`. -/
theorem repr_sevenDigit (n : Nat) (h1 : 1000000 ≤ n) (h2 : n ≤ 9999999) :
    isSevenDigitUID (Nat.repr n) = true ∧ decValue (Nat.repr n).toList = n := by
  have hlen : (decDigits n).length = 7 := by
    have := decDigits_length 6 n (by norm_num; omega) (by norm_num; omega)
    simpa using this
  have htl : (Nat.repr n).toList = decDigits n := by
    rw [repr_eq_decDigits]
    rfl
  have hslen : (Nat.repr n).length = 7 := by
    rw [repr_eq_decDigits]
    show (decDigits n).length = 7
    exact hlen
  refine ⟨?_, ?_⟩
  · simp only [isSevenDigitUID, Bool.and_eq_true, beq_iff_eq]
    refine ⟨hslen, ?_⟩
    rw [htl]
    exact decDigits_all_isDigit n
  · rw [htl, decValue_decDigits]

/-! ## Helper theorems — chart extraction -/

/-- Reading index `i + 1` of a JavaScript array is reading index `i` of its
tail. -/
theorem jsGet_succ (xs : List (Option ℚ)) (i : Nat) : jsGet xs (i + 1) = jsGet xs.tail i := by
  cases xs with
  | nil => rfl
  | cons x xs => simp only [jsGet, List.getElem?_cons_succ, List.tail_cons]

/-- The candle-building loop, characterized per index: the row of index `i`
is emitted exactly when its four prices are strictly positive. -/
theorem chartRows_eq_filterMap :
    ∀ (ts : List Int) (o h l c v : List (Option ℚ)),
      chartRows ts o h l c v =
        (List.range ts.length).filterMap (fun i =>
          if 0 < jsGet o i ∧ 0 < jsGet h i ∧ 0 < jsGet l i ∧ 0 < jsGet c i then
            some ⟨normTime (ts.getD i 0), jsGet o i, jsGet h i, jsGet l i, jsGet c i,
              jsGet v i⟩
          else none) := by
  intro ts
  induction ts with
  | nil =>
    intro o h l c v
    rfl
  | cons t ts ih =>
    intro o h l c v
    rw [chartRows, ih o.tail h.tail l.tail c.tail v.tail, List.length_cons,
      List.range_succ_eq_map, List.filterMap_cons, List.filterMap_map]
    have hfun : ∀ i : Nat,
        ((fun i =>
          if 0 < jsGet o i ∧ 0 < jsGet h i ∧ 0 < jsGet l i ∧ 0 < jsGet c i then
            some (Candle.mk (normTime ((t :: ts).getD i 0)) (jsGet o i) (jsGet h i)
              (jsGet l i) (jsGet c i) (jsGet v i))
          else none) ∘ Nat.succ) i =
        (fun i =>
          if 0 < jsGet o.tail i ∧ 0 < jsGet h.tail i ∧ 0 < jsGet l.tail i ∧
              0 < jsGet c.tail i then
            some (Candle.mk (normTime (ts.getD i 0)) (jsGet o.tail i) (jsGet h.tail i)
              (jsGet l.tail i) (jsGet c.tail i) (jsGet v.tail i))
          else none) i := by
      intro i
      simp only [Function.comp]
      rw [show Nat.succ i = i + 1 from rfl, jsGet_succ o i, jsGet_succ h i, jsGet_succ l i,
        jsGet_succ c i, jsGet_succ v i,
        show (t :: ts).getD (i + 1) 0 = ts.getD i 0 from rfl]
    rw [List.filterMap_congr (fun i _ => hfun i)]
    by_cases hc : 0 < jsGet o 0 ∧ 0 < jsGet h 0 ∧ 0 < jsGet l 0 ∧ 0 < jsGet c 0
    · simp only [if_pos hc]
      rfl
    · simp only [if_neg hc]
      rfl

/-! ## Claims -/

/-- C1 (counterexample): under `exCounter`/`randCounter` the first candidate
whose existence check is false is the one drawn at attempt index 99 — i.e.
the 100th attempt, inside the stated 100-attempt budget — yet
`generateUniqueUID` still fails: the final `attempts >= maxAttempts` test
also fires when the successful draw was the 100th one. -/
theorem generateUniqueUID_attempt100_fails :
    ((List.range 99).all (fun j => exCounter (cand randCounter j)) = true) ∧
    exCounter (cand randCounter 99) = false ∧
    generateUniqueUID exCounter randCounter = Except.error "Failed to generate unique UID" :=
  ⟨rfl, rfl, rfl⟩

/-- C1 (amended): `generateUniqueUID` returns the first drawn candidate whose
existence check is false provided that draw occurs among the first 99
attempts (indices 0–98); it fails with the allocation-exhausted error as
soon as the first 99 candidates all exist — even when the 100th draw would
have been unique. -/
theorem generateUniqueUID_spec (ex : String → Bool) (rand : Nat → Nat) :
    (∀ k, k < 99 → (∀ j, j < k → ex (cand rand j) = true) → ex (cand rand k) = false →
      generateUniqueUID ex rand = Except.ok (cand rand k)) ∧
    ((∀ j, j < 99 → ex (cand rand j) = true) →
      generateUniqueUID ex rand = Except.error "Failed to generate unique UID") := by
  constructor
  · intro k hk hall hkf
    have hres := uidLoop_success ex rand 100 0 none k (by omega) (by omega) (by omega)
      (fun j _ hj => hall j hj) hkf
    simp only [generateUniqueUID, hres]
    rw [if_neg (by simp; omega)]
    rfl
  · intro hall
    have hres := uidLoop_exhaust ex rand 100 0 none (by omega) (by omega)
      (fun j _ hj => hall j hj)
    simp only [generateUniqueUID]
    rw [if_pos (by omega : (uidLoop ex rand 100 0 none true).2 ≥ 100)]

/-- Witness for C1 (amended): with an oracle under which nothing exists, the
very first candidate is returned. -/
theorem generateUniqueUID_spec_witness :
    generateUniqueUID (fun _ => false) (fun _ => 0) = Except.ok (cand (fun _ => 0) 0) :=
  (generateUniqueUID_spec (fun _ => false) (fun _ => 0)).1 0 (by omega)
    (fun j hj => absurd hj (Nat.not_lt_zero j)) rfl

/-- C2: every UID string returned by `generateUniqueUID` (for any random
source whose draws are genuine `Math.floor(Math.random() * 9000000)` values,
i.e. `< 9000000`, and any oracle under which it succeeds) is exactly 7
decimal digits and its numeric value lies in `[1000000, 9999999]`. -/
theorem generateUniqueUID_pattern_range (ex : String → Bool) (rand : Nat → Nat)
    (hrand : ∀ k, rand k < 9000000) (s : String)
    (hok : generateUniqueUID ex rand = Except.ok s) :
    isSevenDigitUID s = true ∧ 1000000 ≤ decValue s.toList ∧ decValue s.toList ≤ 9999999 := by
  have hstep : uidLoop ex rand 100 0 none true =
      uidLoop ex rand 99 1 (some (cand rand 0)) (ex (cand rand 0)) :=
    uidLoop_step ex rand 99 0 none (by omega)
  have hshape : ∃ j, (uidLoop ex rand 100 0 none true).1 = some (cand rand j) := by
    rcases uidLoop_result_shape ex rand 99 1 (some (cand rand 0)) (ex (cand rand 0)) with h | h
    · exact ⟨0, by rw [hstep, h]⟩
    · rcases h with ⟨j, hj⟩
      exact ⟨j, by rw [hstep, hj]⟩
  rcases hshape with ⟨j, hj⟩
  have hs : s = cand rand j := by
    simp only [generateUniqueUID] at hok
    by_cases hge : (uidLoop ex rand 100 0 none true).2 ≥ 100
    · rw [if_pos hge] at hok
      cases hok
    · rw [if_neg hge] at hok
      have := Except.ok.inj hok
      rw [← this, hj]
      rfl
  subst hs
  have hn1 : 1000000 ≤ rand j + 1000000 := by omega
  have hn2 : rand j + 1000000 ≤ 9999999 := by
    have := hrand j
    omega
  obtain ⟨hpat, hval⟩ := repr_sevenDigit (rand j + 1000000) hn1 hn2
  refine ⟨hpat, ?_, ?_⟩
  · rw [show (cand rand j).toList = (Nat.repr (rand j + 1000000)).toList from rfl, hval]
    omega
  · rw [show (cand rand j).toList = (Nat.repr (rand j + 1000000)).toList from rfl, hval]
    omega

/-- Witness for C2: the run with an all-false oracle and zero draws returns
`"1000000"`, which passes the pattern and range checks. -/
theorem generateUniqueUID_pattern_range_witness :
    isSevenDigitUID "1000000" = true ∧
    1000000 ≤ decValue "1000000".toList ∧ decValue "1000000".toList ≤ 9999999 :=
  generateUniqueUID_pattern_range (fun _ => false) (fun _ => 0)
    (fun _ => by show (0 : Nat) < 9000000; decide) "1000000" (by rfl)

/-- C5 (counterexample): the claim interprets every timestamp `≥ 10^12` as
milliseconds, but the test in the code is the strict `timestamp > 1e12`, so at
exactly `t = 10^12` the emitted time is `t` itself, not `t / 1000`. -/
theorem normTime_boundary_not_divided :
    normTime 1000000000000 = 1000000000000 ∧
    (1000000000000 : Int) / 1000 = 1000000000 ∧
    (1000000000000 : Int) ≠ 1000000000 := by
  refine ⟨?_, by decide, by decide⟩
  rw [normTime, if_neg (by decide)]

/-- C5 (amended): the emitted candle time is `floor(t / 1000)` when
`t > 10^12` (strictly) and `floor(t) = t` otherwise; in particular
`1700000000000 ↦ 1700000000` and `1700000000 ↦ 1700000000`. -/
theorem normTime_spec (t : Int) :
    (1000000000000 < t → normTime t = t / 1000) ∧
    (t ≤ 1000000000000 → normTime t = t) ∧
    normTime 1700000000000 = 1700000000 ∧
    normTime 1700000000 = 1700000000 := by
  refine ⟨?_, ?_, ?_, ?_⟩
  · intro h
    rw [normTime, if_pos h]
  · intro h
    rw [normTime, if_neg (by omega)]
  · rw [normTime, if_pos (by decide)]
    decide
  · rw [normTime, if_neg (by decide)]

/-- Witness for C5 (amended): the millisecond branch at `1700000000000`. -/
theorem normTime_spec_witness : normTime 1700000000000 = 1700000000000 / 1000 :=
  (normTime_spec 1700000000000).1 (by decide)

/-- C7: the futures adapter queries upstream with the symbol suffixed by
`"USDT"` exactly when the symbol is one of the eight fixed crypto tickers,
and passes every other symbol through unchanged; `"BTC" ↦ "BTCUSDT"`,
`"AAPL" ↦ "AAPL"`. -/
theorem futuresSymbol_remap (s : String) :
    (futuresSymbol s = s ++ "USDT" ↔ s ∈ cryptoFutures) ∧
    (s ∉ cryptoFutures → futuresSymbol s = s) ∧
    futuresSymbol "BTC" = "BTCUSDT" ∧
    futuresSymbol "AAPL" = "AAPL" := by
  refine ⟨⟨?_, ?_⟩, ?_, by decide, by decide⟩
  · intro he
    by_contra hnm
    rw [futuresSymbol, if_neg hnm] at he
    have hlen := congrArg String.length he
    rw [String.length_append] at hlen
    have : String.length "USDT" = 4 := rfl
    omega
  · intro hm
    rw [futuresSymbol, if_pos hm]
  · intro hnm
    rw [futuresSymbol, if_neg hnm]

/-- Witness for C7: `"AAPL"` is not a crypto ticker and passes through. -/
theorem futuresSymbol_remap_witness : futuresSymbol "AAPL" = "AAPL" :=
  (futuresSymbol_remap "AAPL").2.1 (by decide)

/-- C8: in every snapshot produced by the equity price endpoint, the change
is the resolved price minus the resolved previous close, and the percentage
change is `change / previousClose * 100` when the previous close is
positive and `0` otherwise; at `price = 110, previousClose = 100` this is
`10` and `10.0`. -/
theorem snapshot_change_formula (m : YahooMeta) :
    (mkSnapshot m).priceChange = resolvedPrice m - resolvedPrevClose m ∧
    (0 < resolvedPrevClose m →
      (mkSnapshot m).priceChangePercent =
        (resolvedPrice m - resolvedPrevClose m) / resolvedPrevClose m * 100) ∧
    (resolvedPrevClose m ≤ 0 → (mkSnapshot m).priceChangePercent = 0) ∧
    (mkSnapshot ⟨some 110, none, some 100, none, none, none, none, none, none,
      none⟩).priceChange = 10 ∧
    (mkSnapshot ⟨some 110, none, some 100, none, none, none, none, none, none,
      none⟩).priceChangePercent = 10 := by
  refine ⟨rfl, ?_, ?_, ?_, ?_⟩
  · intro h
    simp only [mkSnapshot]
    rw [if_pos h]
  · intro h
    simp only [mkSnapshot]
    rw [if_neg (by exact not_lt.mpr h)]
  · norm_num [mkSnapshot, resolvedPrice, resolvedPrevClose, jsOr]
  · norm_num [mkSnapshot, resolvedPrice, resolvedPrevClose, jsOr]

/-- Witness for C8: the `price = 110, previousClose = 100` snapshot has a
positive previous close, and the percentage formula applies. -/
theorem snapshot_change_formula_witness :
    (mkSnapshot ⟨some 110, none, some 100, none, none, none, none, none, none,
      none⟩).priceChangePercent =
      (resolvedPrice ⟨some 110, none, some 100, none, none, none, none, none, none, none⟩ -
        resolvedPrevClose ⟨some 110, none, some 100, none, none, none, none, none, none, none⟩) /
        resolvedPrevClose ⟨some 110, none, some 100, none, none, none, none, none, none, none⟩ *
        100 :=
  (snapshot_change_formula _).2.1
    (by norm_num [resolvedPrevClose, resolvedPrice, jsOr])

/-- C10: when the upstream metadata lacks `previousClose`, the resolved
previous close falls back to the resolved price itself, so the snapshot has
`change = 0` and `changePercent = 0`. -/
theorem snapshot_missing_prevClose (m : YahooMeta) (h : m.previousClose = none) :
    (mkSnapshot m).priceChange = 0 ∧ (mkSnapshot m).priceChangePercent = 0 := by
  have hpc : resolvedPrevClose m = resolvedPrice m := by
    rw [resolvedPrevClose, h]
    rfl
  constructor
  · show resolvedPrice m - resolvedPrevClose m = 0
    rw [hpc]
    ring
  · show (if resolvedPrevClose m > 0 then
        (resolvedPrice m - resolvedPrevClose m) / resolvedPrevClose m * 100 else 0) = 0
    rw [hpc]
    by_cases hp : resolvedPrice m > 0
    · rw [if_pos hp]
      field_simp
    · rw [if_neg hp]

/-- Witness for C10: metadata with only a market price and no previous
close. -/
theorem snapshot_missing_prevClose_witness :
    (mkSnapshot ⟨some 42, none, none, none, none, none, none, none, none,
      none⟩).priceChange = 0 ∧
    (mkSnapshot ⟨some 42, none, none, none, none, none, none, none, none,
      none⟩).priceChangePercent = 0 :=
  snapshot_missing_prevClose _ rfl

/-- C9: `updateUserUID` rejects any new UID failing the `^\d{7}$` test with
the validation error; rejects with "UID already exists" when the first
non-deleted holder of the new UID is a different user; succeeds when that
holder is the own record of the caller (re-setting an own UID is permitted);
and in the updated table every non-deleted record of the caller carries the
new UID. -/
theorem updateUserUID_spec (db : List UserRec) (userId : Nat) (newUID : String) :
    (isSevenDigitUID newUID = false →
      updateUserUID db userId newUID = Except.error "UID must be exactly 7 digits") ∧
    (∀ u, isSevenDigitUID newUID = true → getUserByUID db newUID = some u →
      u.id ≠ userId → updateUserUID db userId newUID = Except.error "UID already exists") ∧
    (∀ u, isSevenDigitUID newUID = true → getUserByUID db newUID = some u →
      u.id = userId →
      updateUserUID db userId newUID = Except.ok (applyUIDUpdate db userId newUID)) ∧
    (∀ w, w ∈ applyUIDUpdate db userId newUID → w.id = userId → w.deleted = false →
      w.uid = newUID) := by
  refine ⟨?_, ?_, ?_, ?_⟩
  · intro h7
    rw [updateUserUID, if_pos (by rw [h7]; rfl)]
  · intro u h7 hu hne
    rw [updateUserUID, if_neg (by rw [h7]; exact Bool.false_ne_true), hu]
    simp only [if_pos hne]
  · intro u h7 hu heq
    rw [updateUserUID, if_neg (by rw [h7]; exact Bool.false_ne_true), hu]
    simp only [heq]
    rw [if_neg (by simp)]
  · intro w hw hid hdel
    rw [applyUIDUpdate, List.mem_map] at hw
    rcases hw with ⟨u, _, hwu⟩
    by_cases hc : (u.id == userId && !u.deleted) = true
    · rw [if_pos hc] at hwu
      rw [← hwu]
    · rw [if_neg hc] at hwu
      subst hwu
      simp only [Bool.and_eq_true, beq_iff_eq, Bool.not_eq_eq_eq_not, Bool.not_true] at hc
      exact absurd ⟨hid, hdel⟩ hc

/-- Witness for C9: user 1 already holds `"1234567"`; setting their own UID
to the same value succeeds. -/
theorem updateUserUID_spec_witness :
    updateUserUID [⟨1, "1234567", false⟩] 1 "1234567" =
      Except.ok (applyUIDUpdate [⟨1, "1234567", false⟩] 1 "1234567") :=
  (updateUserUID_spec [⟨1, "1234567", false⟩] 1 "1234567").2.2.1
    ⟨1, "1234567", false⟩ (by rfl) (by rfl) rfl

/-- C3: the equity chart extraction emits a candle for index `i` exactly
when the open, high, low, close values at `i` are all strictly positive
(missing/null prices read as 0 and the row is dropped); on the specified
three-row example exactly the candles of indices 0 and 2 survive. -/
theorem chart_emits_iff_positive :
    (∀ (ts : List Int) (o h l c v : List (Option ℚ)),
      chartRows ts o h l c v =
        (List.range ts.length).filterMap (fun i =>
          if 0 < jsGet o i ∧ 0 < jsGet h i ∧ 0 < jsGet l i ∧ 0 < jsGet c i then
            some ⟨normTime (ts.getD i 0), jsGet o i, jsGet h i, jsGet l i, jsGet c i,
              jsGet v i⟩
          else none)) ∧
    extractCandles [100, 200, 300]
      [some 10, some 0, some 30] [some 11, some 0, some 31]
      [some 9, some 0, some 29] [some 10.5, some 0, some 30.5]
      [some 1, some 0, some 3] =
      [⟨100, 10, 11, 9, 10.5, 1⟩, ⟨300, 30, 31, 29, 30.5, 3⟩] := by
  refine ⟨chartRows_eq_filterMap, ?_⟩
  have hrows : chartRows [100, 200, 300]
      [some 10, some 0, some 30] [some 11, some 0, some 31]
      [some 9, some 0, some 29] [some 10.5, some 0, some 30.5]
      [some 1, some 0, some 3] =
      [⟨100, 10, 11, 9, 10.5, 1⟩, ⟨300, 30, 31, 29, 30.5, 3⟩] := by
    norm_num [chartRows, jsGet, normTime]
  have hsorted : (([⟨100, 10, 11, 9, 10.5, 1⟩, ⟨300, 30, 31, 29, 30.5, 3⟩] :
      List Candle)).Pairwise (fun a b => candleLE a b) := by
    refine List.Pairwise.cons ?_ (List.pairwise_singleton _ _)
    intro b hb
    rw [List.mem_singleton] at hb
    subst hb
    decide
  rw [extractCandles, hrows, List.mergeSort_of_sorted hsorted]

/-- C4: for every upstream payload the extracted candle list is sorted
ascending by time, and sorting it again is the identity. -/
theorem extractCandles_sorted_idempotent (ts : List Int) (o h l c v : List (Option ℚ)) :
    List.Sorted (fun a b : Candle => a.time ≤ b.time) (extractCandles ts o h l c v) ∧
    (extractCandles ts o h l c v).mergeSort candleLE = extractCandles ts o h l c v := by
  have htrans : ∀ a b c : Candle, candleLE a b → candleLE b c → candleLE a c := by
    intro a b c hab hbc
    simp only [candleLE, decide_eq_true_eq] at hab hbc ⊢
    omega
  have htotal : ∀ a b : Candle, candleLE a b || candleLE b a := by
    intro a b
    simp only [candleLE, Bool.or_eq_true, decide_eq_true_eq]
    omega
  have hp := List.sorted_mergeSort htrans htotal (chartRows ts o h l c v)
  constructor
  · exact hp.imp (fun hab => by simpa [candleLE] using hab)
  · exact List.mergeSort_of_sorted hp

/-- C6 (counterexample): a non-success upstream HTTP status is thrown and
lands in the catch block, producing the 500 generic error — not the 404
"no data" outcome the claim asserts. -/
theorem chartHandler_httpError_is500 :
    chartHandler ⟨false, 503, ⟨none⟩⟩ =
      ChartOutcome.serverError "HTTP error! status: 503" ∧
    (chartHandler ⟨false, 503, ⟨none⟩⟩).isNotFound = false :=
  ⟨rfl, rfl⟩

/-- C6 (amended): an absent/empty nested chart-result structure, a missing
quote block, or a missing/empty open array yields the 404 "no data" /
"no quote data" outcome; a non-success upstream HTTP status instead yields
the 500 generic error; a well-formed payload yields the extracted
candles. -/
theorem chartHandler_classification (r : FetchResult) :
    (r.ok = false → chartHandler r =
      ChartOutcome.serverError ("HTTP error! status: " ++ Nat.repr r.status)) ∧
    (r.ok = true → r.data.chart = none →
      chartHandler r = ChartOutcome.notFound "No data found") ∧
    (∀ ch, r.ok = true → r.data.chart = some ch →
      (ch.result = none ∨ ch.result = some []) →
      chartHandler r = ChartOutcome.notFound "No data found") ∧
    (∀ ch res rest, r.ok = true → r.data.chart = some ch →
      ch.result = some (res :: rest) → res.indicators.quote.head? = none →
      chartHandler r = ChartOutcome.notFound "No quote data found") ∧
    (∀ ch res rest q, r.ok = true → r.data.chart = some ch →
      ch.result = some (res :: rest) → res.indicators.quote.head? = some q →
      (q.«open» = none ∨ q.«open» = some []) →
      chartHandler r = ChartOutcome.notFound "No quote data found") ∧
    (∀ ch res rest q op ops, r.ok = true → r.data.chart = some ch →
      ch.result = some (res :: rest) → res.indicators.quote.head? = some q →
      q.«open» = some (op :: ops) →
      chartHandler r = ChartOutcome.candles
        (extractCandles (res.timestamp.getD []) (op :: ops) q.high q.low q.close
          q.volume)) := by
  refine ⟨?_, ?_, ?_, ?_, ?_, ?_⟩
  · intro hok
    rw [chartHandler, if_pos (by rw [hok]; rfl)]
  · intro hok hch
    rw [chartHandler, if_neg (by rw [hok]; simp)]
    simp only [hch]
  · intro ch hok hch hres
    rcases hres with hres | hres
    · rw [chartHandler, if_neg (by rw [hok]; simp)]
      simp only [hch, hres]
    · rw [chartHandler, if_neg (by rw [hok]; simp)]
      simp only [hch, hres]
  · intro ch res rest hok hch hres hq
    rw [chartHandler, if_neg (by rw [hok]; simp)]
    simp only [hch, hres, hq]
  · intro ch res rest q hok hch hres hq hop
    rw [chartHandler, if_neg (by rw [hok]; simp)]
    rcases hop with hop | hop
    · simp only [hch, hres, hq, hop]
    · simp only [hch, hres, hq, hop]
  · intro ch res rest q op ops hok hch hres hq hop
    rw [chartHandler, if_neg (by rw [hok]; simp)]
    simp only [hch, hres, hq, hop]

/-- Witness for C6 (amended): an OK response whose payload has no `chart`
object is a 404 "No data found". -/
theorem chartHandler_classification_witness :
    chartHandler ⟨true, 200, ⟨none⟩⟩ = ChartOutcome.notFound "No data found" :=
  (chartHandler_classification ⟨true, 200, ⟨none⟩⟩).2.1 rfl rfl

end Setlone
